import Mathlib

/-!
# Verification of the xerppy-core RBAC/auth module

Shallow embedding of `backend/app/modules/auth` (service, repository,
router) together with the small slices of its external collaborators
(passlib/bcrypt password hashing, python-jose JWT encode/decode) that the
module's behaviour depends on.  Strings are Lean `String`s, byte strings
are `List Nat` (each entry < 256), database tables are Lean lists, and
Python exceptions are `Option`/`Except` values.
-/

set_option maxRecDepth 10000

namespace Xerppy

/-! ## UTF-8 byte model

Python `str.encode('utf-8')` and `bytes.decode('utf-8', errors='ignore')`,
modelled over `List Nat` byte strings.  The encoder mirrors standard UTF-8
for Unicode scalar values; the decoder mirrors CPython's "maximal subpart"
resynchronisation: an undecodable byte run is dropped and decoding resumes
at the next byte. -/

/-- UTF-8 encoding of a single Unicode scalar value. -/
def utf8EncodeCharNat (n : Nat) : List Nat :=
  if n < 0x80 then [n]
  else if n < 0x800 then [0xC0 + n / 0x40, 0x80 + n % 0x40]
  else if n < 0x10000 then
    [0xE0 + n / 0x1000, 0x80 + (n / 0x40) % 0x40, 0x80 + n % 0x40]
  else
    [0xF0 + n / 0x40000, 0x80 + (n / 0x1000) % 0x40,
     0x80 + (n / 0x40) % 0x40, 0x80 + n % 0x40]

/-- Python `s.encode('utf-8')`. -/
def pyEncode (s : String) : List Nat :=
  (s.data.map (fun c => utf8EncodeCharNat c.toNat)).flatten

/-- Is `b` a UTF-8 continuation byte (`0x80`–`0xBF`)? -/
def contByte (b : Nat) : Bool := 0x80 ≤ b && b ≤ 0xBF

/-- Decoder worker for `bytes.decode('utf-8', errors='ignore')`.
The fuel argument only bounds recursion; every call consumes at least one
byte, so `fuel = length` is enough. -/
def utf8DecodeIgnoreFuel : Nat → List Nat → List Char
  | 0, _ => []
  | _ + 1, [] => []
  | fuel + 1, b :: rest =>
    if b ≤ 0x7F then
      Char.ofNat b :: utf8DecodeIgnoreFuel fuel rest
    else if 0xC2 ≤ b && b ≤ 0xDF then
      match rest with
      | [] => []
      | b1 :: r1 =>
        if contByte b1 then
          Char.ofNat ((b - 0xC0) * 0x40 + (b1 - 0x80)) ::
            utf8DecodeIgnoreFuel fuel r1
        else utf8DecodeIgnoreFuel fuel rest
    else if 0xE0 ≤ b && b ≤ 0xEF then
      match rest with
      | [] => []
      | b1 :: r1 =>
        if (if b = 0xE0 then 0xA0 else 0x80) ≤ b1 &&
            b1 ≤ (if b = 0xED then 0x9F else 0xBF) then
          match r1 with
          | [] => []
          | b2 :: r2 =>
            if contByte b2 then
              Char.ofNat ((b - 0xE0) * 0x1000 + (b1 - 0x80) * 0x40 + (b2 - 0x80)) ::
                utf8DecodeIgnoreFuel fuel r2
            else utf8DecodeIgnoreFuel fuel r1
        else utf8DecodeIgnoreFuel fuel rest
    else if 0xF0 ≤ b && b ≤ 0xF4 then
      match rest with
      | [] => []
      | b1 :: r1 =>
        if (if b = 0xF0 then 0x90 else 0x80) ≤ b1 &&
            b1 ≤ (if b = 0xF4 then 0x8F else 0xBF) then
          match r1 with
          | [] => []
          | b2 :: r2 =>
            if contByte b2 then
              match r2 with
              | [] => []
              | b3 :: r3 =>
                if contByte b3 then
                  Char.ofNat ((b - 0xF0) * 0x40000 + (b1 - 0x80) * 0x1000 +
                      (b2 - 0x80) * 0x40 + (b3 - 0x80)) ::
                    utf8DecodeIgnoreFuel fuel r3
                else utf8DecodeIgnoreFuel fuel r2
            else utf8DecodeIgnoreFuel fuel r1
        else utf8DecodeIgnoreFuel fuel rest
    else
      utf8DecodeIgnoreFuel fuel rest

/-- Python `bs.decode('utf-8', errors='ignore')`. -/
def utf8DecodeIgnore (bs : List Nat) : String :=
  String.mk (utf8DecodeIgnoreFuel bs.length bs)

/-! ## Password hashing (`AuthService.get_password_hash` / `verify_password`)

`pwd_context` is passlib's `CryptContext(schemes=["bcrypt"])` over the
bcrypt 4.x/5.x backend (the version the source's compatibility shims in
`service.py` lines 8–19 are written for).  That backend consumes the UTF-8
bytes of the password, refuses inputs longer than 72 bytes with a
`ValueError`, and an unforgeable digest is determined by the consumed key
bytes and the salt.  `none` models the raised `ValueError`. -/

/-- A bcrypt digest, modelled as the byte string the algorithm consumed
plus the salt.  Collisions are idealised away. -/
structure BcryptHash where
  key : List Nat
  salt : Nat
deriving DecidableEq, Repr

/-- Python `pwd_context.hash(password)`: UTF-8 encode, refuse > 72 bytes
(`none` = raised `ValueError`), otherwise produce the digest. -/
def pwd_context_hash (password : String) (salt : Nat) : Option BcryptHash :=
  let b := pyEncode password
  if b.length > 72 then none else some ⟨b, salt⟩

/-- Python `pwd_context.verify(plain, hash)`: UTF-8 encode, refuse > 72 bytes
(`none` = raised `ValueError`), otherwise compare digests. -/
def pwd_context_verify (plain : String) (h : BcryptHash) : Option Bool :=
  let b := pyEncode plain
  if b.length > 72 then none else some (b = h.key)

/-- Constant `BCRYPT_MAX_PASSWORD_LENGTH` (service.py line 39). -/
def BCRYPT_MAX_PASSWORD_LENGTH : Nat := 72

/-- Source `AuthService.get_password_hash` (service.py lines 54–62): truncate the
UTF-8 encoding to 72 bytes, decode with `errors='ignore'`, hash. -/
def get_password_hash (password : String) (salt : Nat) : Option BcryptHash :=
  let password_bytes := pyEncode password
  let password2 :=
    if password_bytes.length > BCRYPT_MAX_PASSWORD_LENGTH then
      utf8DecodeIgnore (password_bytes.take BCRYPT_MAX_PASSWORD_LENGTH)
    else password
  pwd_context_hash password2 salt

/-- Source `AuthService.verify_password` (service.py lines 45–52): delegate to
`pwd_context.verify` with no truncation of its own. -/
def verify_password (plain_password : String) (hashed_password : BcryptHash) :
    Option Bool :=
  pwd_context_verify plain_password hashed_password

/-! ## Settings (`app/config/settings.py`)

Only the JWT fields the auth module reads.  Default values as in
`Settings`; deployments may override them, but the service reads the
single module-level `settings` object, so we model it as one constant. -/

structure Settings where
  jwt_secret_key : String
  jwt_algorithm : String
  jwt_access_token_expire_minutes : Int
deriving Repr

def settings : Settings :=
  { jwt_secret_key := "your-secret-key-change-in-production"
    jwt_algorithm := "HS256"
    jwt_access_token_expire_minutes := 30 }

/-! ## JWT model (python-jose `jwt.encode` / `jwt.decode`)

A signed token is modelled by the payload it carries together with the
key and algorithm it was signed with; signatures are idealised as
unforgeable.  Anything that is not a well-formed signed token is
`Token.malformed`.  Times are epoch seconds (`Int`). -/

/-- The claims dictionary the auth module encodes: `sub`, `role`, `exp`. -/
structure Payload where
  sub : Option String
  role : Option String
  exp : Int
deriving DecidableEq, Repr

/-- A well-formed signed JWT: payload plus signing key and algorithm. -/
structure Jwt where
  payload : Payload
  key : String
  alg : String
deriving DecidableEq, Repr

/-- A bearer token as presented by a client. -/
inductive Token where
  | signed : Jwt → Token
  | malformed : String → Token
deriving DecidableEq, Repr

/-- The payload of a well-formed token, if any. -/
def Token.payload? : Token → Option Payload
  | .signed j => some j.payload
  | .malformed _ => none

/-- Schema `TokenData` (schemas.py lines 79–82); `decode_access_token` only
builds it with a present username. -/
structure TokenData where
  username : String
  role : Option String
deriving DecidableEq, Repr

/-- Source `AuthService.create_access_token` (service.py lines 64–80).  The data
dict is always `{"sub": …, "role": …}` at the call sites.  Note the Python
guard `if expires_delta:` is falsy both for `None` and for a zero
`timedelta`, so both fall back to the configured default expiry.
`expires_delta` is in seconds. -/
def create_access_token (sub role : Option String)
    (expires_delta : Option Int) (now : Int) : Token :=
  let expire : Int :=
    match expires_delta with
    | some d =>
      if d ≠ 0 then now + d
      else now + 60 * settings.jwt_access_token_expire_minutes
    | none => now + 60 * settings.jwt_access_token_expire_minutes
  Token.signed ⟨⟨sub, role, expire⟩, settings.jwt_secret_key, settings.jwt_algorithm⟩

/-- Source `AuthService.decode_access_token` (service.py lines 82–97).
python-jose's `jwt.decode` verifies the signature (key and algorithm must
match) and the expiration claim (`exp < now` raises
`ExpiredSignatureError`, a `JWTError`); any failure is caught and mapped
to `None`.  A payload with no `sub` is also mapped to `None`. -/
def decode_access_token (t : Token) (now : Int) : Option TokenData :=
  match t with
  | .malformed _ => none
  | .signed j =>
    if j.key = settings.jwt_secret_key ∧ j.alg = settings.jwt_algorithm ∧
        ¬ j.payload.exp < now then
      match j.payload.sub with
      | none => none
      | some u => some ⟨u, j.payload.role⟩
    else none

/-! ## Data model (`app/modules/auth/models.py`, schema in
`alembic/versions/0001_initial_auth_schema.py`)

Tables are lists of rows; the associations `user_roles` and
`role_permissions` are lists of id pairs.  The alembic migration declares
unique indexes on usernames, emails, role names and permission names,
composite primary keys on both association tables, and `ON DELETE
CASCADE` foreign keys; reachable database states satisfy `Store.WF`
below.  Autoincrement ids are modelled by the `next_*_id` counters. -/

structure User where
  id : Nat
  username : String
  email : String
  hashed_password : BcryptHash
  is_active : Bool
  created_at : Int
deriving DecidableEq, Repr

structure Role where
  id : Nat
  name : String
  description : String
deriving DecidableEq, Repr

structure Permission where
  id : Nat
  name : String
  description : String
deriving DecidableEq, Repr

structure Store where
  users : List User
  roles : List Role
  perms : List Permission
  user_roles : List (Nat × Nat)
  role_perms : List (Nat × Nat)
  next_user_id : Nat
  next_role_id : Nat
  next_perm_id : Nat
deriving DecidableEq, Repr

/-- Well-formedness of a database state: exactly the uniqueness and
foreign-key constraints the migration installs, plus the autoincrement
counters being ahead of every existing id. -/
def Store.WF (s : Store) : Prop :=
  (s.users.map User.id).Nodup ∧
  (s.users.map User.username).Nodup ∧
  (s.users.map User.email).Nodup ∧
  (∀ u ∈ s.users, u.id < s.next_user_id) ∧
  (s.roles.map Role.id).Nodup ∧
  (s.roles.map Role.name).Nodup ∧
  (∀ r ∈ s.roles, r.id < s.next_role_id) ∧
  (s.perms.map Permission.id).Nodup ∧
  (s.perms.map Permission.name).Nodup ∧
  (∀ p ∈ s.perms, p.id < s.next_perm_id) ∧
  s.user_roles.Nodup ∧
  (∀ pr ∈ s.user_roles, pr.1 ∈ s.users.map User.id ∧ pr.2 ∈ s.roles.map Role.id) ∧
  s.role_perms.Nodup ∧
  (∀ pr ∈ s.role_perms, pr.1 ∈ s.roles.map Role.id ∧ pr.2 ∈ s.perms.map Permission.id)

instance (s : Store) : Decidable s.WF := by
  unfold Store.WF; infer_instance

/-! ## Repository layer (`app/modules/auth/repository.py`)

`scalar_one_or_none` returns the unique matching row or `None`; under the
unique indexes of the schema a name/email/username matches at most one
row, so `List.find?` is an exact model on well-formed states. -/

/-- Source `UserRepository.get_by_username` (repository.py lines 19–32). -/
def get_by_username (s : Store) (username : String) : Option User :=
  s.users.find? (fun u => u.username = username)

/-- Source `UserRepository.get_by_email` (repository.py lines 34–42). -/
def get_by_email (s : Store) (email : String) : Option User :=
  s.users.find? (fun u => u.email = email)

/-- Source `RoleRepository.get_by_name` (repository.py lines 80–84). -/
def role_get_by_name (s : Store) (name : String) : Option Role :=
  s.roles.find? (fun r => r.name = name)

/-- Source `PermissionRepository.get_by_name` (repository.py lines 133–137). -/
def perm_get_by_name (s : Store) (name : String) : Option Permission :=
  s.perms.find? (fun p => p.name = name)

/-- The `user.roles` relationship (selectinload over `user_roles`). -/
def rolesOf (s : Store) (u : User) : List Role :=
  s.roles.filter (fun r => (u.id, r.id) ∈ s.user_roles)

/-- The `role.permissions` relationship (selectinload over
`role_permissions`). -/
def permsOf (s : Store) (r : Role) : List Permission :=
  s.perms.filter (fun p => (r.id, p.id) ∈ s.role_perms)

/-! ## Authorization service (`app/modules/auth/service.py`) -/

/-- Source `AuthService.authenticate_user` (service.py lines 99–132): look the
identifier up as a username, fall back to an email lookup, then verify
the password.  Outer `none` models an uncaught exception (the bcrypt
length `ValueError` escaping `verify_password`); `some none` models the
`return None` authentication failure. -/
def authenticate_user (s : Store) (username password : String) :
    Option (Option User) :=
  let user :=
    match get_by_username s username with
    | some u => some u
    | none => get_by_email s username
  match user with
  | none => some none
  | some u =>
    match verify_password password u.hashed_password with
    | none => none
    | some ok => if ok then some (some u) else some none

/-- Source `AuthService.get_user_roles` (service.py lines 195–201). -/
def get_user_roles (s : Store) (u : User) : List String :=
  (rolesOf s u).map Role.name

/-- The `ValueError`s `register_user` raises on conflicts. -/
inductive RegError where
  | duplicateUsername
  | duplicateEmail
deriving DecidableEq, Repr

/-- Source `AuthService.register_user` (service.py lines 134–168): check the
username, then the email, then create the user and attach the default
role if that role exists.  Outer `none` models an uncaught exception
(impossible here: the hash input is pre-truncated); the returned `Store`
is the state after the call, unchanged on the error paths because both
checks precede any insert. -/
def register_user (s : Store) (username email password : String)
    (salt : Nat) (now : Int) (role_name : String := "user") :
    Option (Except RegError User × Store) :=
  if (get_by_username s username).isSome then
    some (.error .duplicateUsername, s)
  else if (get_by_email s email).isSome then
    some (.error .duplicateEmail, s)
  else
    match get_password_hash password salt with
    | none => none
    | some h =>
      let u : User :=
        { id := s.next_user_id, username := username, email := email
          hashed_password := h, is_active := true, created_at := now }
      let s1 := { s with users := s.users ++ [u],
                         next_user_id := s.next_user_id + 1 }
      match role_get_by_name s1 role_name with
      | none => some (.ok u, s1)
      | some r =>
        some (.ok u, { s1 with user_roles := s1.user_roles ++ [(u.id, r.id)] })

/-! ### Seeding (`RoleRepository.seed_defaults`,
`PermissionRepository.seed_defaults`,
`AuthService.seed_default_roles_and_permissions`) -/

/-- Table `default_roles` (repository.py lines 113–116). -/
def default_role_list : List (String × String) :=
  [("admin", "Administrator with full access"),
   ("user", "Regular user with basic access")]

/-- Table `default_permissions` (repository.py lines 154–161). -/
def default_permission_list : List (String × String) :=
  [("users.read", "Read users"),
   ("users.write", "Create/Update users"),
   ("users.delete", "Delete users"),
   ("roles.read", "Read roles"),
   ("roles.write", "Create/Update roles"),
   ("roles.delete", "Delete roles")]

/-- Python `session.add(Role(**role_data))` followed by the flush assigning the
autoincrement id. -/
def addRole (s : Store) (d : String × String) : Store :=
  { s with roles := s.roles ++ [⟨s.next_role_id, d.1, d.2⟩],
           next_role_id := s.next_role_id + 1 }

/-- One iteration of the loop in `RoleRepository.seed_defaults`
(repository.py lines 118–122). -/
def role_seed_step (s : Store) (d : String × String) : Store :=
  if (role_get_by_name s d.1).isSome then s else addRole s d

/-- Source `RoleRepository.seed_defaults` (repository.py lines 111–124). -/
def role_seed_defaults (s : Store) : Store :=
  default_role_list.foldl role_seed_step s

/-- Python `session.add(Permission(**perm_data))` followed by the flush
assigning the autoincrement id. -/
def addPerm (s : Store) (d : String × String) : Store :=
  { s with perms := s.perms ++ [⟨s.next_perm_id, d.1, d.2⟩],
           next_perm_id := s.next_perm_id + 1 }

/-- One iteration of the loop in `PermissionRepository.seed_defaults`
(repository.py lines 163–167). -/
def perm_seed_step (s : Store) (d : String × String) : Store :=
  if (perm_get_by_name s d.1).isSome then s else addPerm s d

/-- Source `PermissionRepository.seed_defaults` (repository.py lines 152–169). -/
def perm_seed_defaults (s : Store) : Store :=
  default_permission_list.foldl perm_seed_step s

/-- The admin-grant block of `seed_default_roles_and_permissions`
(service.py lines 187–193): compute the admin role's current permission
ids, filter `get_all` down to the permissions not already held, and
extend the association list with them. -/
def grant_all_to_admin (s2 : Store) (admin_role : Role) : Store :=
  let existing_perm_ids := (permsOf s2 admin_role).map Permission.id
  let new_perms := s2.perms.filter (fun p => p.id ∉ existing_perm_ids)
  { s2 with role_perms :=
      s2.role_perms ++ new_perms.map (fun p => (admin_role.id, p.id)) }

/-- The `if admin_role:` guard around the grant block (service.py lines
187–193): grant only when the admin role was found. -/
def seed_grant_phase (s2 : Store) : Option Role → Store
  | none => s2
  | some admin_role => grant_all_to_admin s2 admin_role

/-- Source `AuthService.seed_default_roles_and_permissions` (service.py lines
170–193): seed permissions, seed roles, then extend the admin role's
permission list with every permission from `get_all` whose id it does not
already hold. -/
def seed_default_roles_and_permissions (s : Store) : Store :=
  let s2 := role_seed_defaults (perm_seed_defaults s)
  seed_grant_phase s2 (role_get_by_name s2 "admin")

/-! ## Router and dependency gate (`app/modules/auth/router.py`) -/

/-- The `HTTPException` kinds the gate raises: 401 Unauthorized with a
`WWW-Authenticate` challenge, 400 "Inactive user", 403 "Admin access
required". -/
inductive GateError where
  | unauthenticated
  | inactiveAccount
  | forbidden
deriving DecidableEq, Repr

/-- Schema `UserWithRoles` (schemas.py lines 27–37). -/
structure UserWithRoles where
  id : Nat
  username : String
  email : String
  is_active : Bool
  roles : List String
  created_at : Int
deriving DecidableEq, Repr

/-- The `UserWithRoles` response built at router.py lines 48–55: role
names come from the database relationship, not from the token. -/
def userWithRolesOf (s : Store) (u : User) : UserWithRoles :=
  { id := u.id, username := u.username, email := u.email
    is_active := u.is_active
    roles := (rolesOf s u).map Role.name
    created_at := u.created_at }

/-- Dependency `get_current_user` (router.py lines 26–55): decode the token, then
resolve the subject as a username. -/
def get_current_user (s : Store) (token : Token) (now : Int) :
    Except GateError UserWithRoles :=
  match decode_access_token token now with
  | none => .error .unauthenticated
  | some token_data =>
    match get_by_username s token_data.username with
    | none => .error .unauthenticated
    | some u => .ok (userWithRolesOf s u)

/-- Dependency `get_current_active_user` (router.py lines 58–67). -/
def get_current_active_user (s : Store) (token : Token) (now : Int) :
    Except GateError UserWithRoles :=
  match get_current_user s token now with
  | .error e => .error e
  | .ok cu => if cu.is_active then .ok cu else .error .inactiveAccount

/-- Dependency `get_admin_user` (router.py lines 70–79). -/
def get_admin_user (s : Store) (token : Token) (now : Int) :
    Except GateError UserWithRoles :=
  match get_current_active_user s token now with
  | .error e => .error e
  | .ok cu => if "admin" ∈ cu.roles then .ok cu else .error .forbidden

/-- The `HTTPException` kinds the `login` endpoint raises. -/
inductive LoginError where
  | invalidCredentials
  | inactiveAccount
deriving DecidableEq, Repr

/-- Endpoint `login` (router.py lines 101–134): authenticate, reject inactive
accounts, compute the primary role (`roles[0] if roles else "user"`) and
mint the token with the default expiry.  Outer `none` models an uncaught
exception escaping `authenticate_user`. -/
def login (s : Store) (username password : String) (now : Int) :
    Option (Except LoginError Token) :=
  match authenticate_user s username password with
  | none => none
  | some none => some (.error .invalidCredentials)
  | some (some user) =>
    if !user.is_active then some (.error .inactiveAccount)
    else
      let roles := get_user_roles s user
      let primary_role := match roles with | [] => "user" | r :: _ => r
      some (.ok (create_access_token (some user.username) (some primary_role)
        none now))

/-- Endpoint `get_current_user_info`, the `/me` endpoint (router.py lines
137–140): returns the `get_current_user` dependency's result as-is. -/
def get_current_user_info (s : Store) (token : Token) (now : Int) :
    Except GateError UserWithRoles :=
  get_current_user s token now

/-! ## Concrete instances used by witnesses and counterexamples -/

/-- The digest `get_password_hash` produces for a password of at most 72
UTF-8 bytes. -/
def hashPw (p : String) (salt : Nat) : BcryptHash := ⟨pyEncode p, salt⟩

/-- A 73-byte password: `'a'` followed by 36 `'é'` (2 bytes each).  Byte
72 falls in the middle of the final `'é'`. -/
def pwLong : String := String.mk ('a' :: List.replicate 36 'é')

/-- A 73-byte all-ASCII password. -/
def pw73 : String := String.mk (List.replicate 73 'a')

def adminRole : Role := ⟨1, "admin", "Administrator with full access"⟩
def userRole : Role := ⟨2, "user", "Regular user with basic access"⟩
def alice : User := ⟨1, "alice", "alice@x.com", hashPw "pw123456" 0, true, 0⟩
def bob : User := ⟨2, "bob", "bob@x.com", hashPw "pwbob" 1, false, 0⟩
def carol : User := ⟨3, "carol", "carol@x.com", hashPw "pwcarol" 2, true, 0⟩

/-- A populated state: `alice` an active admin, `bob` an inactive admin,
`carol` an active plain user. -/
def demoStore : Store :=
  { users := [alice, bob, carol]
    roles := [adminRole, userRole]
    perms := []
    user_roles := [(1, 1), (2, 1), (3, 2)]
    role_perms := []
    next_user_id := 4, next_role_id := 3, next_perm_id := 1 }

/-- A well-formed signed token for subject `u` with the given role claim,
expiring at epoch second 100000. -/
def goodToken (u : String) (role : Option String) : Token :=
  Token.signed ⟨⟨some u, role, 100000⟩, settings.jwt_secret_key,
    settings.jwt_algorithm⟩

/-- User `shadowA`'s username is `shadowB`'s email. -/
def shadowA : User := ⟨1, "b@x.com", "a@x.com", hashPw "pa" 0, true, 0⟩
def shadowB : User := ⟨2, "bobby", "b@x.com", hashPw "pb" 1, true, 0⟩

/-- A state where one user's email collides with another user's
username. -/
def shadowStore : Store :=
  { users := [shadowA, shadowB], roles := [], perms := [], user_roles := []
    role_perms := [], next_user_id := 3, next_role_id := 1, next_perm_id := 1 }

/-- An empty database. -/
def emptyStore : Store :=
  { users := [], roles := [], perms := [], user_roles := [], role_perms := []
    next_user_id := 1, next_role_id := 1, next_perm_id := 1 }

/-- A permission outside the seed set. -/
def customPerm : Permission := ⟨1, "custom.x", "A custom capability"⟩

/-- A state holding one non-seed permission and nothing else. -/
def preStore : Store :=
  { users := [], roles := [], perms := [customPerm], user_roles := []
    role_perms := [], next_user_id := 1, next_role_id := 1, next_perm_id := 2 }

instance {e a : Type} [DecidableEq e] [DecidableEq a] :
    DecidableEq (Except e a) := fun x y =>
  match x, y with
  | .error e1, .error e2 =>
    if h : e1 = e2 then isTrue (by rw [h])
    else isFalse (by intro hc; cases hc; exact h rfl)
  | .error _, .ok _ => isFalse (by intro hc; cases hc)
  | .ok _, .error _ => isFalse (by intro hc; cases hc)
  | .ok a1, .ok a2 =>
    if h : a1 = a2 then isTrue (by rw [h])
    else isFalse (by intro hc; cases hc; exact h rfl)

end Xerppy

namespace Xerppy

/-! ## Claim theorems -/

/-- C1 (code bug, evaluated at the failing input).  The claim says
`verify_password p (get_password_hash p)` is true for every password,
with the same 72-byte truncation applied at hashing and at verification
time.  The code truncates only in `get_password_hash`;
`verify_password` hands the untruncated password to the bcrypt backend,
which rejects inputs over 72 bytes.  For the 73-byte password `pwLong`,
hashing succeeds (on the 71-byte `errors='ignore'` truncation) but
verification raises instead of returning true; the 73-byte ASCII
password `pw73` behaves the same way, while a 72-byte password
round-trips. -/
theorem c1_long_password_roundtrip_fails :
    (pyEncode pwLong).length = 73 ∧
    (get_password_hash pwLong 0).isSome = true ∧
    ((get_password_hash pwLong 0).bind (verify_password pwLong)) = none ∧
    ((get_password_hash pw73 0).bind (verify_password pw73)) = none ∧
    ((get_password_hash (String.mk (List.replicate 72 'a')) 0).bind
      (verify_password (String.mk (List.replicate 72 'a')))) = some true := by
  decide

/-- C4 (corrected).  `decode_access_token` returns `none` — never an
exception — on a malformed token, a token signed with the wrong key or
algorithm, a payload with no `sub` claim, and an expired token; a token
minted with a positive ttl carries the embedded subject and role claims
and decodes to them before expiry and to `none` after; a token minted
with a negative (already past) ttl never decodes at or after its
creation.  (The original claim's `ttl = 0` clause is corrected by
`c4_ttl_zero_token_decodes`.) -/
theorem c4_decode_failure_modes :
    (∀ (m : String) (now : Int),
      decode_access_token (.malformed m) now = none) ∧
    (∀ (j : Jwt) (now : Int), j.key ≠ settings.jwt_secret_key →
      decode_access_token (.signed j) now = none) ∧
    (∀ (j : Jwt) (now : Int), j.alg ≠ settings.jwt_algorithm →
      decode_access_token (.signed j) now = none) ∧
    (∀ (j : Jwt) (now : Int), j.payload.sub = none →
      decode_access_token (.signed j) now = none) ∧
    (∀ (su : String) (role : Option String) (d now now2 : Int), 0 < d →
      now ≤ now2 → now2 < now + d →
      decode_access_token (create_access_token (some su) role (some d) now) now2
        = some ⟨su, role⟩) ∧
    (∀ (su : String) (role : Option String) (d now now2 : Int), 0 < d →
      now + d < now2 →
      decode_access_token (create_access_token (some su) role (some d) now) now2
        = none) ∧
    (∀ (su ro : Option String) (d now now2 : Int), d < 0 → now ≤ now2 →
      decode_access_token (create_access_token su ro (some d) now) now2
        = none) := by
  refine ⟨fun m now => rfl, ?_, ?_, ?_, ?_, ?_, ?_⟩
  · intro j now hk
    simp [decode_access_token, hk]
  · intro j now ha
    simp [decode_access_token, ha]
  · intro j now hs
    simp [decode_access_token, hs]
  · intro su role d now now2 hd h1 h2
    simp [create_access_token, decode_access_token,
      show d ≠ 0 from by omega, show ¬ now + d < now2 from by omega]
  · intro su role d now now2 hd h2
    simp [create_access_token, decode_access_token,
      show d ≠ 0 from by omega, show now + d < now2 from by omega]
  · intro su ro d now now2 hd h1
    simp [create_access_token, decode_access_token,
      show d ≠ 0 from by omega, show now + d < now2 from by omega]

/-- Witness for C4: concrete instances of every conjunct of
`c4_decode_failure_modes`. -/
theorem c4_decode_failure_modes_witness :
    decode_access_token (.malformed "zzz") 0 = none ∧
    decode_access_token (.signed ⟨⟨some "u", none, 100⟩, "other-key", "HS256"⟩) 0
      = none ∧
    decode_access_token
      (.signed ⟨⟨some "u", none, 100⟩, settings.jwt_secret_key, "none"⟩) 0
      = none ∧
    decode_access_token
      (.signed ⟨⟨none, some "admin", 100⟩, settings.jwt_secret_key,
        settings.jwt_algorithm⟩) 0 = none ∧
    decode_access_token (create_access_token (some "u") (some "admin") (some 60) 0)
      30 = some ⟨"u", some "admin"⟩ ∧
    decode_access_token (create_access_token (some "u") (some "admin") (some 60) 0)
      61 = none ∧
    decode_access_token (create_access_token (some "u") none (some (-5)) 100) 100
      = none := by
  refine ⟨c4_decode_failure_modes.1 "zzz" 0,
    c4_decode_failure_modes.2.1 _ 0 (by decide),
    c4_decode_failure_modes.2.2.1 _ 0 (by decide),
    c4_decode_failure_modes.2.2.2.1 _ 0 rfl,
    c4_decode_failure_modes.2.2.2.2.1 "u" (some "admin") 60 0 30 (by decide)
      (by decide) (by decide),
    c4_decode_failure_modes.2.2.2.2.2.1 "u" (some "admin") 60 0 61 (by decide)
      (by decide),
    c4_decode_failure_modes.2.2.2.2.2.2 (some "u") none (-5) 100 100 (by decide)
      (by decide)⟩

/-- C4 counterexample: a token created with ttl = 0 does not "always
fail decode".  Python's `if expires_delta:` treats a zero `timedelta` as
absent, so the default 30-minute expiry applies: the token's `exp` is
1800 seconds after creation and it decodes successfully one second after
being minted. -/
theorem c4_ttl_zero_token_decodes :
    (create_access_token (some "u") (some "user") (some 0) 0).payload? =
      some ⟨some "u", some "user", 1800⟩ ∧
    decode_access_token (create_access_token (some "u") (some "user") (some 0) 0) 1
      = some ⟨"u", some "user"⟩ := by
  decide

/-- C5 (confirmed).  The admin gate evaluates its checks in a fixed
short-circuiting order: decode failure yields `Unauthenticated` (401)
with no regard to the store; an unknown subject yields `Unauthenticated`;
an inactive account yields `InactiveAccount` (400) with no regard to the
account's roles; an active account without the admin role yields
`Forbidden` (403); and only an active admin passes. -/
theorem c5_admin_gate_order :
    ∀ (s : Store) (t : Token) (now : Int),
      (decode_access_token t now = none →
        get_current_user s t now = .error .unauthenticated ∧
        get_current_active_user s t now = .error .unauthenticated ∧
        get_admin_user s t now = .error .unauthenticated) ∧
      (∀ td, decode_access_token t now = some td →
        get_by_username s td.username = none →
        get_current_user s t now = .error .unauthenticated ∧
        get_admin_user s t now = .error .unauthenticated) ∧
      (∀ td u, decode_access_token t now = some td →
        get_by_username s td.username = some u →
        u.is_active = false →
        get_admin_user s t now = .error .inactiveAccount) ∧
      (∀ td u, decode_access_token t now = some td →
        get_by_username s td.username = some u →
        u.is_active = true →
        "admin" ∉ (rolesOf s u).map Role.name →
        get_admin_user s t now = .error .forbidden) ∧
      (∀ td u, decode_access_token t now = some td →
        get_by_username s td.username = some u →
        u.is_active = true →
        "admin" ∈ (rolesOf s u).map Role.name →
        get_admin_user s t now = .ok (userWithRolesOf s u)) := by
  intro s t now
  refine ⟨?_, ?_, ?_, ?_, ?_⟩
  · intro h
    simp [get_current_user, get_current_active_user, get_admin_user, h]
  · intro td h1 h2
    simp [get_current_user, get_current_active_user, get_admin_user, h1, h2]
  · intro td u h1 h2 h3
    simp [get_current_user, get_current_active_user, get_admin_user,
      userWithRolesOf, h1, h2, h3]
  · intro td u h1 h2 h3 h4
    simp [get_current_user, get_current_active_user, get_admin_user,
      userWithRolesOf, h1, h2, h3, h4]
  · intro td u h1 h2 h3 h4
    simp [get_current_user, get_current_active_user, get_admin_user,
      userWithRolesOf, h1, h2, h3, h4]

/-- Witness for C5: every case of `c5_admin_gate_order` at concrete
inputs — a malformed token, a token for an unknown subject, inactive
`bob`, non-admin `carol`, and admin `alice`. -/
theorem c5_admin_gate_order_witness :
    get_admin_user demoStore (Token.malformed "x") 0 = .error .unauthenticated ∧
    get_admin_user demoStore (goodToken "ghost" none) 0
      = .error .unauthenticated ∧
    get_admin_user demoStore (goodToken "bob" none) 0
      = .error .inactiveAccount ∧
    get_admin_user demoStore (goodToken "carol" none) 0 = .error .forbidden ∧
    get_admin_user demoStore (goodToken "alice" none) 0
      = .ok (userWithRolesOf demoStore alice) :=
  ⟨((c5_admin_gate_order demoStore (Token.malformed "x") 0).1 (by decide)).2.2,
   ((c5_admin_gate_order demoStore (goodToken "ghost" none) 0).2.1
     ⟨"ghost", none⟩ (by decide) (by decide)).2,
   (c5_admin_gate_order demoStore (goodToken "bob" none) 0).2.2.1
     ⟨"bob", none⟩ bob (by decide) (by decide) (by decide),
   (c5_admin_gate_order demoStore (goodToken "carol" none) 0).2.2.2.1
     ⟨"carol", none⟩ carol (by decide) (by decide) (by decide) (by decide),
   (c5_admin_gate_order demoStore (goodToken "alice" none) 0).2.2.2.2
     ⟨"alice", none⟩ alice (by decide) (by decide) (by decide) (by decide)⟩

/-- C8 (confirmed).  Gate outcomes are independent of the token's
role claim: two valid tokens with the same subject, whatever their role
claims, give identical results at every gate, because the gate rebuilds
the role set from the store for the subject. -/
theorem c8_role_claim_ignored :
    ∀ (s : Store) (t1 t2 : Token) (now : Int) (td1 td2 : TokenData),
      decode_access_token t1 now = some td1 →
      decode_access_token t2 now = some td2 →
      td1.username = td2.username →
      get_current_user s t1 now = get_current_user s t2 now ∧
      get_current_active_user s t1 now = get_current_active_user s t2 now ∧
      get_admin_user s t1 now = get_admin_user s t2 now := by
  intro s t1 t2 now td1 td2 h1 h2 hu
  have hcu : get_current_user s t1 now = get_current_user s t2 now := by
    simp [get_current_user, h1, h2, hu]
  refine ⟨hcu, ?_, ?_⟩
  · simp [get_current_active_user, hcu]
  · simp [get_admin_user, get_current_active_user, hcu]

/-- Witness for C8: a token claiming role `admin` and a token with no
role claim at all, both for `carol`, agree at every gate. -/
theorem c8_role_claim_ignored_witness :
    get_current_user demoStore (goodToken "carol" (some "admin")) 0
      = get_current_user demoStore (goodToken "carol" none) 0 ∧
    get_current_active_user demoStore (goodToken "carol" (some "admin")) 0
      = get_current_active_user demoStore (goodToken "carol" none) 0 ∧
    get_admin_user demoStore (goodToken "carol" (some "admin")) 0
      = get_admin_user demoStore (goodToken "carol" none) 0 :=
  c8_role_claim_ignored demoStore (goodToken "carol" (some "admin"))
    (goodToken "carol" none) 0 ⟨"carol", some "admin"⟩ ⟨"carol", none⟩
    (by decide) (by decide) (by decide)

/-- C10 (confirmed).  The `/me` endpoint performs no active-account
check: any user resolved from a valid token receives the full profile —
id, username, email, `is_active`, role names, `created_at` — even when
inactive; the inactive-account rejection lives in the active/admin gate
dependencies and in `login`. -/
theorem c10_me_no_active_check :
    ∀ (s : Store) (t : Token) (now : Int) (td : TokenData) (u : User),
      decode_access_token t now = some td →
      get_by_username s td.username = some u →
      get_current_user_info s t now =
        .ok ⟨u.id, u.username, u.email, u.is_active,
          (rolesOf s u).map Role.name, u.created_at⟩ ∧
      (u.is_active = false →
        get_current_active_user s t now = .error .inactiveAccount ∧
        get_admin_user s t now = .error .inactiveAccount ∧
        (∀ password,
          verify_password password u.hashed_password = some true →
          get_by_username s u.username = some u →
          login s u.username password now = some (.error .inactiveAccount))) := by
  intro s t now td u h1 h2
  constructor
  · simp [get_current_user_info, get_current_user, userWithRolesOf, h1, h2]
  · intro hina
    refine ⟨?_, ?_, ?_⟩
    · simp [get_current_active_user, get_current_user, userWithRolesOf, h1, h2,
        hina]
    · simp [get_admin_user, get_current_active_user, get_current_user,
        userWithRolesOf, h1, h2, hina]
    · intro password hv hu
      simp [login, authenticate_user, hu, hv, hina]

/-- Witness for C10: inactive `bob` still gets a full profile from `/me`
but is rejected by the active gate and by login. -/
theorem c10_me_no_active_check_witness :
    get_current_user_info demoStore (goodToken "bob" none) 0 =
      .ok ⟨bob.id, bob.username, bob.email, bob.is_active,
        (rolesOf demoStore bob).map Role.name, bob.created_at⟩ ∧
    get_current_active_user demoStore (goodToken "bob" none) 0
      = .error .inactiveAccount ∧
    login demoStore "bob" "pwbob" 0 = some (.error .inactiveAccount) := by
  have h := c10_me_no_active_check demoStore (goodToken "bob" none) 0
    ⟨"bob", none⟩ bob (by decide) (by decide)
  exact ⟨h.1, (h.2 (by decide)).1,
    (h.2 (by decide)).2.2 "pwbob" (by decide) (by decide)⟩

/-- Helper: on a table whose `f`-projection has no duplicates,
`find?` on `f`-equality returns exactly the member with that key
(`scalar_one_or_none` under a unique index). -/
theorem find_first_by_key {α β : Type} [DecidableEq β] (f : α → β) :
    ∀ (l : List α) (a : α), (l.map f).Nodup → a ∈ l →
      l.find? (fun x => f x = f a) = some a := by
  intro l
  induction l with
  | nil => intro a _ ha; cases ha
  | cons b l ih =>
    intro a hnd ha
    have hnd2 : (∀ x ∈ l, ¬ f x = f b) ∧ (l.map f).Nodup := by simpa using hnd
    by_cases hb : f b = f a
    · have hab : b = a := by
        rcases List.mem_cons.mp ha with h | h
        · exact h.symm
        · exact absurd hb.symm (hnd2.1 a h)
      rw [List.find?_cons_of_pos _ (by simpa using hb), hab]
    · rw [List.find?_cons_of_neg _ (by simpa using hb)]
      have hal : a ∈ l := by
        rcases List.mem_cons.mp ha with h | h
        · exact absurd (h ▸ rfl) hb
        · exact h
      exact ih a hnd2.2 hal

/-- C3 (corrected).  For every identifier and every password of at
most 72 UTF-8 bytes, `authenticate_user` never raises; when the
identifier resolves as a username the result is decided by that user's
password check (the email lookup is never consulted); when the username
lookup is empty the email lookup decides; when neither resolves the
result is "no user", indistinguishable from the wrong-password result;
and a user reachable by username is reached identically by email
provided no account's username equals that email.  (The two restrictions
— password length, and the email-shadowing proviso — are forced by
`c3_counterexample`.) -/
theorem c3_authenticate_characterisation :
    ∀ (s : Store) (identifier password : String),
      (pyEncode password).length ≤ 72 →
      (∃ r, authenticate_user s identifier password = some r) ∧
      (∀ u b, get_by_username s identifier = some u →
        verify_password password u.hashed_password = some b →
        authenticate_user s identifier password
          = some (if b then some u else none)) ∧
      (∀ u b, get_by_username s identifier = none →
        get_by_email s identifier = some u →
        verify_password password u.hashed_password = some b →
        authenticate_user s identifier password
          = some (if b then some u else none)) ∧
      (get_by_username s identifier = none →
       get_by_email s identifier = none →
       authenticate_user s identifier password = some none) ∧
      (∀ u ∈ s.users, s.WF →
        (∀ v ∈ s.users, v.username = u.email → v = u) →
        authenticate_user s u.username password
          = authenticate_user s u.email password) := by
  intro s identifier password hlen
  have hver : ∀ (h : BcryptHash), ∃ b, verify_password password h = some b := by
    intro h
    refine ⟨pyEncode password = h.key, ?_⟩
    simp only [verify_password, pwd_context_verify]
    rw [if_neg (by omega)]
  refine ⟨?_, ?_, ?_, ?_, ?_⟩
  · simp only [authenticate_user]
    rcases hu : (match get_by_username s identifier with
      | some u => some u
      | none => get_by_email s identifier) with _ | u
    · rw [hu]
      exact ⟨none, rfl⟩
    · rw [hu]
      obtain ⟨b, hb⟩ := hver u.hashed_password
      simp only [hb]
      exact ⟨if b then some u else none, by cases b <;> simp⟩
  · intro u b h1 h2
    cases b <;> simp [authenticate_user, h1, h2]
  · intro u b h1 h2 h3
    cases b <;> simp [authenticate_user, h1, h2, h3]
  · intro h1 h2
    simp [authenticate_user, h1, h2]
  · intro u hu hwf hnoshadow
    obtain ⟨_, hun, hem, _⟩ := hwf
    have husr : get_by_username s u.username = some u :=
      find_first_by_key User.username s.users u hun hu
    have hrhs : (match get_by_username s u.email with
        | some v => some v
        | none => get_by_email s u.email) = some u := by
      rcases hv : get_by_username s u.email with _ | v
      · have hem2 : get_by_email s u.email = some u :=
          find_first_by_key User.email s.users u hem hu
        simp [hem2]
      · have hv2 := List.find?_some hv
        have hvmem := List.mem_of_find?_eq_some hv
        have : v = u := hnoshadow v hvmem (by simpa using hv2)
        simp [this]
    simp only [authenticate_user, husr, hrhs]

/-- C3 counterexample.  In `shadowStore`, `shadowA`'s username is the
string `"b@x.com"`, which is also `shadowB`'s email.  Addressing
`shadowB` by its email with `shadowB`'s correct password returns no user
(the username lookup wins and `shadowA`'s password check fails), even
though the matching user exists and the password verifies — refuting
"returns the matching user exactly when that user exists and the
password verifies".  And authenticating an existing username with a
73-byte password raises (the bcrypt length error) instead of returning
no user — refuting "never raising an exception ... for a wrong
password". -/
theorem c3_counterexample :
    shadowStore.WF ∧
    shadowB ∈ shadowStore.users ∧
    shadowB.email = "b@x.com" ∧
    verify_password "pb" shadowB.hashed_password = some true ∧
    authenticate_user shadowStore "b@x.com" "pb" = some none ∧
    authenticate_user shadowStore "bobby" pw73 = none := by
  decide

/-- Witness for C3: `alice` authenticates with her password, and the
outcome is the same whether she is addressed by username or email. -/
theorem c3_witness :
    authenticate_user demoStore "alice" "pw123456" = some (some alice) ∧
    authenticate_user demoStore "alice" "pw123456"
      = authenticate_user demoStore "alice@x.com" "pw123456" := by
  constructor
  · have := (c3_authenticate_characterisation demoStore "alice" "pw123456"
      (by decide)).2.1 alice true (by decide) (by decide)
    simpa using this
  · exact (c3_authenticate_characterisation demoStore "alice" "pw123456"
      (by decide)).2.2.2.2 alice (by decide) (by decide) (by decide)

/-- C6 (confirmed).  `register_user` checks conflicts before any
insert: a taken username fails with the duplicate-username error
whatever the email, a fresh username with a taken email fails with the
duplicate-email error, and in both failure cases the returned state is
exactly the input state. -/
theorem c6_register_conflict_checks :
    ∀ (s : Store) (username email password : String) (salt : Nat) (now : Int)
      (role_name : String),
      ((∃ u ∈ s.users, u.username = username) →
        register_user s username email password salt now role_name
          = some (.error .duplicateUsername, s)) ∧
      ((∀ u ∈ s.users, u.username ≠ username) →
        (∃ u ∈ s.users, u.email = email) →
        register_user s username email password salt now role_name
          = some (.error .duplicateEmail, s)) := by
  intro s username email password salt now role_name
  constructor
  · intro h
    have h1 : (get_by_username s username).isSome := by
      rw [get_by_username, List.find?_isSome]
      obtain ⟨u, hu, he⟩ := h
      exact ⟨u, hu, by simp [he]⟩
    simp [register_user, h1]
  · intro h hx
    have h1 : get_by_username s username = none := by
      rw [get_by_username, List.find?_eq_none]
      intro u hu
      simp [h u hu]
    have h2 : (get_by_email s email).isSome := by
      rw [get_by_email, List.find?_isSome]
      obtain ⟨u, hu, he⟩ := hx
      exact ⟨u, hu, by simp [he]⟩
    simp [register_user, h1, h2]

/-- Witness for C6: re-registering `alice`'s username with a fresh email
fails with the duplicate-username error; a fresh username with `bob`'s
email fails with the duplicate-email error; the store is unchanged. -/
theorem c6_register_conflict_checks_witness :
    register_user demoStore "alice" "fresh@x.com" "newpw12" 7 0 "user"
      = some (.error .duplicateUsername, demoStore) ∧
    register_user demoStore "dave" "bob@x.com" "newpw12" 7 0 "user"
      = some (.error .duplicateEmail, demoStore) :=
  ⟨(c6_register_conflict_checks demoStore "alice" "fresh@x.com" "newpw12" 7 0
      "user").1 ⟨alice, by decide, by decide⟩,
   (c6_register_conflict_checks demoStore "dave" "bob@x.com" "newpw12" 7 0
      "user").2 (by decide) ⟨bob, by decide, by decide⟩⟩

/-- C7 (confirmed).  Every successful login issues a token whose
payload carries `sub` equal to the authenticated user's username, `role`
equal to the first of the user's role names (or `"user"` when the user
has none), and `exp` equal to issue time plus the configured default
expiry. -/
theorem c7_login_token_payload :
    ∀ (s : Store) (username password : String) (now : Int) (t : Token),
      login s username password now = some (.ok t) →
      ∃ u, authenticate_user s username password = some (some u) ∧
        u.is_active = true ∧
        t.payload? = some ⟨some u.username,
          some (match get_user_roles s u with | [] => "user" | r :: _ => r),
          now + 60 * settings.jwt_access_token_expire_minutes⟩ := by
  intro s username password now t h
  simp only [login] at h
  rcases hau : authenticate_user s username password with _ | ou
  · rw [hau] at h; exact absurd h (by simp)
  · rw [hau] at h
    rcases ou with _ | u
    · simp at h
    · dsimp only at h
      by_cases hact : u.is_active
      · refine ⟨u, rfl, hact, ?_⟩
        rw [if_neg (by simp [hact])] at h
        have ht : create_access_token (some u.username)
            (some (match get_user_roles s u with | [] => "user" | r :: _ => r))
            none now = t := by
          simpa using h
        rw [← ht]
        simp [create_access_token, Token.payload?]
      · rw [if_pos (by simp [hact])] at h
        simp at h

/-- Witness for C7: `alice`'s login at epoch 0 yields the token with
subject `alice`, role `admin` (her first role), and expiry 1800. -/
theorem c7_login_token_payload_witness :
    ∃ u, authenticate_user demoStore "alice" "pw123456" = some (some u) ∧
      u.is_active = true ∧
      (Token.signed ⟨⟨some "alice", some "admin", 1800⟩,
        settings.jwt_secret_key, settings.jwt_algorithm⟩).payload?
        = some ⟨some u.username,
            some (match get_user_roles demoStore u with
              | [] => "user" | r :: _ => r),
            0 + 60 * settings.jwt_access_token_expire_minutes⟩ :=
  c7_login_token_payload demoStore "alice" "pw123456" 0
    (Token.signed ⟨⟨some "alice", some "admin", 1800⟩,
      settings.jwt_secret_key, settings.jwt_algorithm⟩) (by decide)

theorem perm_seed_step_frame (s : Store) (d : String × String) :
    (perm_seed_step s d).users = s.users ∧
    (perm_seed_step s d).roles = s.roles ∧
    (perm_seed_step s d).user_roles = s.user_roles ∧
    (perm_seed_step s d).role_perms = s.role_perms ∧
    (perm_seed_step s d).next_user_id = s.next_user_id ∧
    (perm_seed_step s d).next_role_id = s.next_role_id := by
  unfold perm_seed_step addPerm
  split <;> exact ⟨rfl, rfl, rfl, rfl, rfl, rfl⟩

theorem perm_seed_foldl_frame (L : List (String × String)) :
    ∀ s : Store, ((L.foldl perm_seed_step s).users = s.users ∧
      (L.foldl perm_seed_step s).roles = s.roles ∧
      (L.foldl perm_seed_step s).user_roles = s.user_roles ∧
      (L.foldl perm_seed_step s).role_perms = s.role_perms ∧
      (L.foldl perm_seed_step s).next_user_id = s.next_user_id ∧
      (L.foldl perm_seed_step s).next_role_id = s.next_role_id) := by
  induction L with
  | nil => intro s; exact ⟨rfl, rfl, rfl, rfl, rfl, rfl⟩
  | cons d L ih =>
    intro s
    obtain ⟨a1, a2, a3, a4, a5, a6⟩ := ih (perm_seed_step s d)
    obtain ⟨b1, b2, b3, b4, b5, b6⟩ := perm_seed_step_frame s d
    exact ⟨a1.trans b1, a2.trans b2, a3.trans b3, a4.trans b4,
      a5.trans b5, a6.trans b6⟩

theorem perm_seed_foldl_perms_ext (L : List (String × String)) :
    ∀ s : Store, ∃ ext : List Permission,
      (L.foldl perm_seed_step s).perms = s.perms ++ ext := by
  induction L with
  | nil => intro s; exact ⟨[], by simp⟩
  | cons d L ih =>
    intro s
    obtain ⟨ext, hext⟩ := ih (perm_seed_step s d)
    rw [List.foldl_cons]
    by_cases h : (perm_get_by_name s d.1).isSome
    · refine ⟨ext, ?_⟩
      rw [hext]
      unfold perm_seed_step
      rw [if_pos h]
    · refine ⟨⟨s.next_perm_id, d.1, d.2⟩ :: ext, ?_⟩
      rw [hext]
      unfold perm_seed_step addPerm
      rw [if_neg h]
      simp

theorem perm_seed_step_inv (s : Store) (d : String × String)
    (h1 : (s.perms.map Permission.name).Nodup)
    (h2 : (s.perms.map Permission.id).Nodup)
    (h3 : ∀ p ∈ s.perms, p.id < s.next_perm_id) :
    ((perm_seed_step s d).perms.map Permission.name).Nodup ∧
    ((perm_seed_step s d).perms.map Permission.id).Nodup ∧
    (∀ p ∈ (perm_seed_step s d).perms,
      p.id < (perm_seed_step s d).next_perm_id) ∧
    d.1 ∈ (perm_seed_step s d).perms.map Permission.name := by
  unfold perm_seed_step
  by_cases h : (perm_get_by_name s d.1).isSome
  · rw [if_pos h]
    refine ⟨h1, h2, h3, ?_⟩
    rw [Option.isSome_iff_exists] at h
    obtain ⟨p, hp⟩ := h
    have hmem := List.mem_of_find?_eq_some hp
    have hname : p.name = d.1 := by simpa using List.find?_some hp
    exact hname ▸ List.mem_map_of_mem Permission.name hmem
  · rw [if_neg h]
    unfold addPerm
    have habs : ∀ p ∈ s.perms, p.name ≠ d.1 := by
      intro p hp
      rw [Option.not_isSome_iff_eq_none] at h
      have := List.find?_eq_none.mp h p hp
      simpa using this
    refine ⟨?_, ?_, ?_, ?_⟩
    · rw [List.map_append, List.nodup_append]
      refine ⟨h1, by simp, ?_⟩
      intro x hx
      simp only [List.map_cons, List.map_nil, List.mem_singleton]
      obtain ⟨p, hp, hpx⟩ := List.mem_map.mp hx
      intro hcon
      rw [hcon] at hpx
      exact habs p hp hpx
    · rw [List.map_append, List.nodup_append]
      refine ⟨h2, by simp, ?_⟩
      intro x hx
      simp only [List.map_cons, List.map_nil, List.mem_singleton]
      obtain ⟨p, hp, hpx⟩ := List.mem_map.mp hx
      intro hcon
      rw [hcon] at hpx
      exact absurd (hpx ▸ h3 p hp) (lt_irrefl _)
    · intro p hp
      rcases List.mem_append.mp hp with hp | hp
      · exact Nat.lt_succ_of_lt (h3 p hp)
      · simp at hp
        rw [hp]
        exact Nat.lt_succ_self _
    · rw [List.map_append]
      simp

theorem perm_seed_foldl_inv (L : List (String × String)) :
    ∀ s : Store,
      (s.perms.map Permission.name).Nodup →
      (s.perms.map Permission.id).Nodup →
      (∀ p ∈ s.perms, p.id < s.next_perm_id) →
      ((L.foldl perm_seed_step s).perms.map Permission.name).Nodup ∧
      ((L.foldl perm_seed_step s).perms.map Permission.id).Nodup ∧
      (∀ p ∈ (L.foldl perm_seed_step s).perms,
        p.id < (L.foldl perm_seed_step s).next_perm_id) ∧
      (∀ d ∈ L, d.1 ∈ (L.foldl perm_seed_step s).perms.map Permission.name) := by
  induction L with
  | nil => intro s h1 h2 h3; exact ⟨h1, h2, h3, by simp⟩
  | cons d L ih =>
    intro s h1 h2 h3
    obtain ⟨s1, s2, s3, s4⟩ := perm_seed_step_inv s d h1 h2 h3
    obtain ⟨f1, f2, f3, f4⟩ := ih (perm_seed_step s d) s1 s2 s3
    rw [List.foldl_cons]
    refine ⟨f1, f2, f3, ?_⟩
    intro e he
    rcases List.mem_cons.mp he with he | he
    · obtain ⟨ext, hext⟩ := perm_seed_foldl_perms_ext L (perm_seed_step s d)
      rw [hext, List.map_append]
      rw [he]
      exact List.mem_append_left _ s4
    · exact f4 e he

theorem role_seed_step_frame (s : Store) (d : String × String) :
    (role_seed_step s d).users = s.users ∧
    (role_seed_step s d).perms = s.perms ∧
    (role_seed_step s d).user_roles = s.user_roles ∧
    (role_seed_step s d).role_perms = s.role_perms ∧
    (role_seed_step s d).next_user_id = s.next_user_id ∧
    (role_seed_step s d).next_perm_id = s.next_perm_id := by
  unfold role_seed_step addRole
  split <;> exact ⟨rfl, rfl, rfl, rfl, rfl, rfl⟩

theorem role_seed_foldl_frame (L : List (String × String)) :
    ∀ s : Store, ((L.foldl role_seed_step s).users = s.users ∧
      (L.foldl role_seed_step s).perms = s.perms ∧
      (L.foldl role_seed_step s).user_roles = s.user_roles ∧
      (L.foldl role_seed_step s).role_perms = s.role_perms ∧
      (L.foldl role_seed_step s).next_user_id = s.next_user_id ∧
      (L.foldl role_seed_step s).next_perm_id = s.next_perm_id) := by
  induction L with
  | nil => intro s; exact ⟨rfl, rfl, rfl, rfl, rfl, rfl⟩
  | cons d L ih =>
    intro s
    obtain ⟨a1, a2, a3, a4, a5, a6⟩ := ih (role_seed_step s d)
    obtain ⟨b1, b2, b3, b4, b5, b6⟩ := role_seed_step_frame s d
    exact ⟨a1.trans b1, a2.trans b2, a3.trans b3, a4.trans b4,
      a5.trans b5, a6.trans b6⟩

theorem role_seed_foldl_roles_ext (L : List (String × String)) :
    ∀ s : Store, ∃ ext : List Role,
      (L.foldl role_seed_step s).roles = s.roles ++ ext := by
  induction L with
  | nil => intro s; exact ⟨[], by simp⟩
  | cons d L ih =>
    intro s
    obtain ⟨ext, hext⟩ := ih (role_seed_step s d)
    rw [List.foldl_cons]
    by_cases h : (role_get_by_name s d.1).isSome
    · refine ⟨ext, ?_⟩
      rw [hext]
      unfold role_seed_step
      rw [if_pos h]
    · refine ⟨⟨s.next_role_id, d.1, d.2⟩ :: ext, ?_⟩
      rw [hext]
      unfold role_seed_step addRole
      rw [if_neg h]
      simp

theorem role_seed_step_inv (s : Store) (d : String × String)
    (h1 : (s.roles.map Role.name).Nodup)
    (h2 : (s.roles.map Role.id).Nodup)
    (h3 : ∀ r ∈ s.roles, r.id < s.next_role_id) :
    ((role_seed_step s d).roles.map Role.name).Nodup ∧
    ((role_seed_step s d).roles.map Role.id).Nodup ∧
    (∀ r ∈ (role_seed_step s d).roles,
      r.id < (role_seed_step s d).next_role_id) ∧
    d.1 ∈ (role_seed_step s d).roles.map Role.name := by
  unfold role_seed_step
  by_cases h : (role_get_by_name s d.1).isSome
  · rw [if_pos h]
    refine ⟨h1, h2, h3, ?_⟩
    rw [Option.isSome_iff_exists] at h
    obtain ⟨r, hr⟩ := h
    have hmem := List.mem_of_find?_eq_some hr
    have hname : r.name = d.1 := by simpa using List.find?_some hr
    exact hname ▸ List.mem_map_of_mem Role.name hmem
  · rw [if_neg h]
    unfold addRole
    have habs : ∀ r ∈ s.roles, r.name ≠ d.1 := by
      intro r hr
      rw [Option.not_isSome_iff_eq_none] at h
      have := List.find?_eq_none.mp h r hr
      simpa using this
    refine ⟨?_, ?_, ?_, ?_⟩
    · rw [List.map_append, List.nodup_append]
      refine ⟨h1, by simp, ?_⟩
      intro x hx
      simp only [List.map_cons, List.map_nil, List.mem_singleton]
      obtain ⟨r, hr, hrx⟩ := List.mem_map.mp hx
      intro hcon
      rw [hcon] at hrx
      exact habs r hr hrx
    · rw [List.map_append, List.nodup_append]
      refine ⟨h2, by simp, ?_⟩
      intro x hx
      simp only [List.map_cons, List.map_nil, List.mem_singleton]
      obtain ⟨r, hr, hrx⟩ := List.mem_map.mp hx
      intro hcon
      rw [hcon] at hrx
      exact absurd (hrx ▸ h3 r hr) (lt_irrefl _)
    · intro r hr
      rcases List.mem_append.mp hr with hr | hr
      · exact Nat.lt_succ_of_lt (h3 r hr)
      · simp at hr
        rw [hr]
        exact Nat.lt_succ_self _
    · rw [List.map_append]
      simp

theorem role_seed_foldl_inv (L : List (String × String)) :
    ∀ s : Store,
      (s.roles.map Role.name).Nodup →
      (s.roles.map Role.id).Nodup →
      (∀ r ∈ s.roles, r.id < s.next_role_id) →
      ((L.foldl role_seed_step s).roles.map Role.name).Nodup ∧
      ((L.foldl role_seed_step s).roles.map Role.id).Nodup ∧
      (∀ r ∈ (L.foldl role_seed_step s).roles,
        r.id < (L.foldl role_seed_step s).next_role_id) ∧
      (∀ d ∈ L, d.1 ∈ (L.foldl role_seed_step s).roles.map Role.name) := by
  induction L with
  | nil => intro s h1 h2 h3; exact ⟨h1, h2, h3, by simp⟩
  | cons d L ih =>
    intro s h1 h2 h3
    obtain ⟨s1, s2, s3, s4⟩ := role_seed_step_inv s d h1 h2 h3
    obtain ⟨f1, f2, f3, f4⟩ := ih (role_seed_step s d) s1 s2 s3
    rw [List.foldl_cons]
    refine ⟨f1, f2, f3, ?_⟩
    intro e he
    rcases List.mem_cons.mp he with he | he
    · obtain ⟨ext, hext⟩ := role_seed_foldl_roles_ext L (role_seed_step s d)
      rw [hext, List.map_append]
      rw [he]
      exact List.mem_append_left _ s4
    · exact f4 e he

theorem grant_all_to_admin_post (s2 : Store) (admin : Role)
    (hadmin : admin ∈ s2.roles)
    (hpId : (s2.perms.map Permission.id).Nodup)
    (hRPnd : s2.role_perms.Nodup)
    (hFK : ∀ pr ∈ s2.role_perms,
      pr.1 ∈ s2.roles.map Role.id ∧ pr.2 ∈ s2.perms.map Permission.id) :
    (grant_all_to_admin s2 admin).users = s2.users ∧
    (grant_all_to_admin s2 admin).roles = s2.roles ∧
    (grant_all_to_admin s2 admin).perms = s2.perms ∧
    (grant_all_to_admin s2 admin).user_roles = s2.user_roles ∧
    (grant_all_to_admin s2 admin).next_user_id = s2.next_user_id ∧
    (grant_all_to_admin s2 admin).next_role_id = s2.next_role_id ∧
    (grant_all_to_admin s2 admin).next_perm_id = s2.next_perm_id ∧
    (grant_all_to_admin s2 admin).role_perms.Nodup ∧
    (∀ pr ∈ (grant_all_to_admin s2 admin).role_perms,
      pr.1 ∈ s2.roles.map Role.id ∧ pr.2 ∈ s2.perms.map Permission.id) ∧
    (∀ p ∈ s2.perms, (admin.id, p.id) ∈ (grant_all_to_admin s2 admin).role_perms) := by
  unfold grant_all_to_admin
  refine ⟨rfl, rfl, rfl, rfl, rfl, rfl, rfl, ?_, ?_, ?_⟩
  · rw [List.nodup_append]
    refine ⟨hRPnd, ?_, ?_⟩
    · have hndids : ((s2.perms.filter
          (fun p => p.id ∉ (permsOf s2 admin).map Permission.id)).map
            Permission.id).Nodup :=
        hpId.sublist ((List.filter_sublist _).map _)
      have heq : (s2.perms.filter
          (fun p => p.id ∉ (permsOf s2 admin).map Permission.id)).map
            (fun p => (admin.id, p.id)) =
          ((s2.perms.filter
            (fun p => p.id ∉ (permsOf s2 admin).map Permission.id)).map
              Permission.id).map (fun i => (admin.id, i)) :=
        (List.map_map _ _ _).symm
      rw [heq]
      exact hndids.map (fun a b h => by simpa using h)
    · intro x hx hx2
      obtain ⟨p, hp, hpx⟩ := List.mem_map.mp hx2
      have hpf := List.mem_filter.mp hp
      have hnotin : p.id ∉ (permsOf s2 admin).map Permission.id := by
        simpa using hpf.2
      apply hnotin
      have hpin : p ∈ permsOf s2 admin := by
        rw [permsOf, List.mem_filter]
        refine ⟨hpf.1, ?_⟩
        simp only [decide_eq_true_eq]
        rw [← hpx] at hx
        exact hx
      exact List.mem_map_of_mem Permission.id hpin
  · intro pr hpr
    rcases List.mem_append.mp hpr with h | h
    · exact hFK pr h
    · obtain ⟨p, hp, hpx⟩ := List.mem_map.mp h
      have hpf := List.mem_filter.mp hp
      rw [← hpx]
      exact ⟨List.mem_map_of_mem Role.id hadmin,
        List.mem_map_of_mem Permission.id hpf.1⟩
  · intro p hp
    by_cases hmem : p.id ∈ (permsOf s2 admin).map Permission.id
    · obtain ⟨q, hq, hqp⟩ := List.mem_map.mp hmem
      have hqf := List.mem_filter.mp hq
      have hqrp : (admin.id, q.id) ∈ s2.role_perms := by
        simpa using hqf.2
      apply List.mem_append_left
      rw [← hqp]
      exact hqrp
    · apply List.mem_append_right
      apply List.mem_map.mpr
      refine ⟨p, ?_, rfl⟩
      rw [List.mem_filter]
      exact ⟨hp, by simpa using hmem⟩

theorem perm_seed_defaults_frame (s : Store) :
    (perm_seed_defaults s).users = s.users ∧
    (perm_seed_defaults s).roles = s.roles ∧
    (perm_seed_defaults s).user_roles = s.user_roles ∧
    (perm_seed_defaults s).role_perms = s.role_perms ∧
    (perm_seed_defaults s).next_user_id = s.next_user_id ∧
    (perm_seed_defaults s).next_role_id = s.next_role_id :=
  perm_seed_foldl_frame default_permission_list s

theorem perm_seed_defaults_ext (s : Store) :
    ∃ ext : List Permission, (perm_seed_defaults s).perms = s.perms ++ ext :=
  perm_seed_foldl_perms_ext default_permission_list s

theorem perm_seed_defaults_inv (s : Store)
    (h1 : (s.perms.map Permission.name).Nodup)
    (h2 : (s.perms.map Permission.id).Nodup)
    (h3 : ∀ p ∈ s.perms, p.id < s.next_perm_id) :
    ((perm_seed_defaults s).perms.map Permission.name).Nodup ∧
    ((perm_seed_defaults s).perms.map Permission.id).Nodup ∧
    (∀ p ∈ (perm_seed_defaults s).perms,
      p.id < (perm_seed_defaults s).next_perm_id) ∧
    (∀ d ∈ default_permission_list,
      d.1 ∈ (perm_seed_defaults s).perms.map Permission.name) :=
  perm_seed_foldl_inv default_permission_list s h1 h2 h3

theorem role_seed_defaults_frame (s : Store) :
    (role_seed_defaults s).users = s.users ∧
    (role_seed_defaults s).perms = s.perms ∧
    (role_seed_defaults s).user_roles = s.user_roles ∧
    (role_seed_defaults s).role_perms = s.role_perms ∧
    (role_seed_defaults s).next_user_id = s.next_user_id ∧
    (role_seed_defaults s).next_perm_id = s.next_perm_id :=
  role_seed_foldl_frame default_role_list s

theorem role_seed_defaults_ext (s : Store) :
    ∃ ext : List Role, (role_seed_defaults s).roles = s.roles ++ ext :=
  role_seed_foldl_roles_ext default_role_list s

theorem role_seed_defaults_inv (s : Store)
    (h1 : (s.roles.map Role.name).Nodup)
    (h2 : (s.roles.map Role.id).Nodup)
    (h3 : ∀ r ∈ s.roles, r.id < s.next_role_id) :
    ((role_seed_defaults s).roles.map Role.name).Nodup ∧
    ((role_seed_defaults s).roles.map Role.id).Nodup ∧
    (∀ r ∈ (role_seed_defaults s).roles,
      r.id < (role_seed_defaults s).next_role_id) ∧
    (∀ d ∈ default_role_list,
      d.1 ∈ (role_seed_defaults s).roles.map Role.name) :=
  role_seed_foldl_inv default_role_list s h1 h2 h3

theorem seed_post (s : Store) (hwf : s.WF) :
    (seed_default_roles_and_permissions s).WF ∧
    (seed_default_roles_and_permissions s).users = s.users ∧
    (seed_default_roles_and_permissions s).user_roles = s.user_roles ∧
    (∀ p ∈ s.perms, p ∈ (seed_default_roles_and_permissions s).perms) ∧
    (∀ d ∈ default_role_list,
      d.1 ∈ (seed_default_roles_and_permissions s).roles.map Role.name) ∧
    (∀ d ∈ default_permission_list,
      d.1 ∈ (seed_default_roles_and_permissions s).perms.map Permission.name) ∧
    (∃ admin, role_get_by_name (seed_default_roles_and_permissions s) "admin"
        = some admin ∧
      ∀ p ∈ (seed_default_roles_and_permissions s).perms,
        (admin.id, p.id) ∈ (seed_default_roles_and_permissions s).role_perms) := by
  obtain ⟨wA, wB, wC, wD, wE, wF, wG, wH, wI, wJ, wK, wL, wM, wN⟩ := hwf
  obtain ⟨pfU, pfR, pfUR, pfRP, pfNU, pfNR⟩ := perm_seed_defaults_frame s
  obtain ⟨p1n, p1i, p1b, p1mem⟩ := perm_seed_defaults_inv s wI wH wJ
  obtain ⟨extP, hextP⟩ := perm_seed_defaults_ext s
  obtain ⟨rfU, rfP, rfUR, rfRP, rfNU, rfNP⟩ :=
    role_seed_defaults_frame (perm_seed_defaults s)
  obtain ⟨r2n, r2i, r2b, r2mem⟩ := role_seed_defaults_inv (perm_seed_defaults s)
    (by rw [pfR]; exact wF) (by rw [pfR]; exact wE)
    (by rw [pfR, pfNR]; intro r hr; exact wG r hr)
  obtain ⟨extR, hextR⟩ := role_seed_defaults_ext (perm_seed_defaults s)
  have hadminname : "admin" ∈
      (role_seed_defaults (perm_seed_defaults s)).roles.map Role.name :=
    r2mem ("admin", "Administrator with full access") (by simp [default_role_list])
  obtain ⟨adm0, hadm0mem, hadm0nm⟩ := List.mem_map.mp hadminname
  have hfindsome : (role_get_by_name (role_seed_defaults (perm_seed_defaults s))
      "admin").isSome := by
    rw [role_get_by_name, List.find?_isSome]
    exact ⟨adm0, hadm0mem, by simp [hadm0nm]⟩
  obtain ⟨adm, hadm⟩ := Option.isSome_iff_exists.mp hfindsome
  have hadmmem : adm ∈ (role_seed_defaults (perm_seed_defaults s)).roles :=
    List.mem_of_find?_eq_some hadm
  have hgrant := grant_all_to_admin_post (role_seed_defaults (perm_seed_defaults s))
    adm hadmmem (by rw [rfP]; exact p1i) (by rw [rfRP, pfRP]; exact wM) ?hfk
  case hfk =>
    intro pr hpr
    rw [rfRP, pfRP] at hpr
    obtain ⟨hh1, hh2⟩ := wN pr hpr
    constructor
    · rw [hextR, pfR, List.map_append]
      exact List.mem_append_left _ hh1
    · rw [rfP, hextP, List.map_append]
      exact List.mem_append_left _ hh2
  obtain ⟨gU, gR, gP, gUR, gNU, gNR, gNP, gNd, gFK, gClo⟩ := hgrant
  have hseed : seed_default_roles_and_permissions s =
      grant_all_to_admin (role_seed_defaults (perm_seed_defaults s)) adm := by
    show seed_grant_phase (role_seed_defaults (perm_seed_defaults s))
      (role_get_by_name (role_seed_defaults (perm_seed_defaults s)) "admin")
      = grant_all_to_admin (role_seed_defaults (perm_seed_defaults s)) adm
    rw [hadm]
    rfl
  rw [hseed]
  refine ⟨⟨?_, ?_, ?_, ?_, ?_, ?_, ?_, ?_, ?_, ?_, ?_, ?_, ?_, ?_⟩,
    ?_, ?_, ?_, ?_, ?_, ?_⟩
  · rw [gU, rfU, pfU]; exact wA
  · rw [gU, rfU, pfU]; exact wB
  · rw [gU, rfU, pfU]; exact wC
  · rw [gU, rfU, pfU, gNU, rfNU, pfNU]; exact wD
  · rw [gR]; exact r2i
  · rw [gR]; exact r2n
  · rw [gR, gNR]; exact r2b
  · rw [gP, rfP]; exact p1i
  · rw [gP, rfP]; exact p1n
  · rw [gP, rfP, gNP, rfNP]; exact p1b
  · rw [gUR, rfUR, pfUR]; exact wK
  · rw [gUR, rfUR, pfUR]
    intro pr hpr
    obtain ⟨hh1, hh2⟩ := wL pr hpr
    constructor
    · rw [gU, rfU, pfU]; exact hh1
    · rw [gR, hextR, pfR, List.map_append]
      exact List.mem_append_left _ hh2
  · exact gNd
  · intro pr hpr
    obtain ⟨hh1, hh2⟩ := gFK pr hpr
    constructor
    · rw [gR]; exact hh1
    · rw [gP]; exact hh2
  · rw [gU, rfU, pfU]
  · rw [gUR, rfUR, pfUR]
  · intro p hp
    rw [gP, rfP, hextP]
    exact List.mem_append_left _ hp
  · intro d hd
    rw [gR]
    exact r2mem d hd
  · intro d hd
    rw [gP, rfP]
    exact p1mem d hd
  · refine ⟨adm, ?_, ?_⟩
    · rw [role_get_by_name] at hadm
      rw [role_get_by_name, gR]
      exact hadm
    · intro p hp
      rw [gP, rfP] at hp
      exact gClo p (by rw [rfP]; exact hp)

theorem seed_admin_closure (s : Store) (hwf : s.WF) :
    ∃ admin, role_get_by_name (seed_default_roles_and_permissions s) "admin"
        = some admin ∧
      permsOf (seed_default_roles_and_permissions s) admin
        = (seed_default_roles_and_permissions s).perms := by
  obtain ⟨-, -, -, -, -, -, admin, hfind, hclo⟩ := seed_post s hwf
  refine ⟨admin, hfind, ?_⟩
  rw [permsOf, List.filter_eq_self]
  intro p hp
  simpa using hclo p hp

theorem seed_counts (s : Store) (hwf : s.WF) :
    (∀ d ∈ default_role_list,
      ((seed_default_roles_and_permissions s).roles.map Role.name).count d.1
        = 1) ∧
    (∀ d ∈ default_permission_list,
      ((seed_default_roles_and_permissions s).perms.map Permission.name).count
        d.1 = 1) := by
  obtain ⟨⟨-, -, -, -, -, hrn, -, -, hpn, -, -, -, -, -⟩, -, -, -, hrmem, hpmem,
    -⟩ := seed_post s hwf
  constructor
  · intro d hd
    exact List.count_eq_one_of_mem hrn (hrmem d hd)
  · intro d hd
    exact List.count_eq_one_of_mem hpn (hpmem d hd)

/-- C2 (corrected, amended to "contains the seeded set / equals the full
permission table").  From any well-formed (schema-satisfying) state,
running the seeding operation twice leaves exactly one role row per seed
role name and one permission row per seed permission name, no duplicate
role-permission (or user-role) association rows, and after each run the
admin role's permission set contains every seeded permission and equals
the full permission table at that moment.  (The original "equals the full
seeded permission set" fails when a non-seed permission pre-exists, see
`c2_counterexample`.) -/
theorem c2_seed_twice (s : Store) (hwf : s.WF) :
    (∀ d ∈ default_role_list,
      ((seed_default_roles_and_permissions s).roles.map Role.name).count d.1
          = 1 ∧
      ((seed_default_roles_and_permissions
        (seed_default_roles_and_permissions s)).roles.map Role.name).count d.1
          = 1) ∧
    (∀ d ∈ default_permission_list,
      ((seed_default_roles_and_permissions s).perms.map Permission.name).count
          d.1 = 1 ∧
      ((seed_default_roles_and_permissions
        (seed_default_roles_and_permissions s)).perms.map
          Permission.name).count d.1 = 1) ∧
    (seed_default_roles_and_permissions s).role_perms.Nodup ∧
    (seed_default_roles_and_permissions
      (seed_default_roles_and_permissions s)).role_perms.Nodup ∧
    (seed_default_roles_and_permissions s).user_roles.Nodup ∧
    (∃ admin, role_get_by_name (seed_default_roles_and_permissions s) "admin"
        = some admin ∧
      permsOf (seed_default_roles_and_permissions s) admin
        = (seed_default_roles_and_permissions s).perms ∧
      ∀ d ∈ default_permission_list,
        d.1 ∈ (permsOf (seed_default_roles_and_permissions s) admin).map
          Permission.name) ∧
    (∃ admin, role_get_by_name
        (seed_default_roles_and_permissions
          (seed_default_roles_and_permissions s)) "admin" = some admin ∧
      permsOf (seed_default_roles_and_permissions
          (seed_default_roles_and_permissions s)) admin
        = (seed_default_roles_and_permissions
            (seed_default_roles_and_permissions s)).perms ∧
      ∀ d ∈ default_permission_list,
        d.1 ∈ (permsOf (seed_default_roles_and_permissions
            (seed_default_roles_and_permissions s)) admin).map
          Permission.name) := by
  have hwf1 : (seed_default_roles_and_permissions s).WF := (seed_post s hwf).1
  obtain ⟨hc1r, hc1p⟩ := seed_counts s hwf
  obtain ⟨hc2r, hc2p⟩ := seed_counts (seed_default_roles_and_permissions s) hwf1
  obtain ⟨⟨-, -, -, -, -, -, -, -, -, -, hur1, -, hrp1, -⟩, -, -, -, -, hpm1, -⟩ :=
    seed_post s hwf
  obtain ⟨⟨-, -, -, -, -, -, -, -, -, -, -, -, hrp2, -⟩, -, -, -, -, hpm2, -⟩ :=
    seed_post (seed_default_roles_and_permissions s) hwf1
  obtain ⟨adm1, hf1, he1⟩ := seed_admin_closure s hwf
  obtain ⟨adm2, hf2, he2⟩ :=
    seed_admin_closure (seed_default_roles_and_permissions s) hwf1
  refine ⟨fun d hd => ⟨hc1r d hd, hc2r d hd⟩,
    fun d hd => ⟨hc1p d hd, hc2p d hd⟩, hrp1, hrp2, hur1,
    ⟨adm1, hf1, he1, ?_⟩, ⟨adm2, hf2, he2, ?_⟩⟩
  · intro d hd
    rw [he1]
    obtain ⟨-, -, -, -, -, hpmem, -⟩ := seed_post s hwf
    exact hpmem d hd
  · intro d hd
    rw [he2]
    obtain ⟨-, -, -, -, -, hpmem, -⟩ :=
      seed_post (seed_default_roles_and_permissions s) hwf1
    exact hpmem d hd

set_option maxHeartbeats 1000000 in
/-- C2 counterexample: starting from `preStore`, a well-formed state
holding the non-seed permission `custom.x`, the admin role's permission
set after seeding (twice) contains `custom.x`, so it does not equal the
full seeded permission set. -/
theorem c2_counterexample :
    preStore.WF ∧
    (∃ admin, role_get_by_name
        (seed_default_roles_and_permissions
          (seed_default_roles_and_permissions preStore)) "admin" = some admin ∧
      "custom.x" ∈ (permsOf
        (seed_default_roles_and_permissions
          (seed_default_roles_and_permissions preStore)) admin).map
            Permission.name) ∧
    "custom.x" ∉ default_permission_list.map Prod.fst := by
  decide

/-- Witness for C2: the amended claim at the empty database. -/
theorem c2_witness :
    ((seed_default_roles_and_permissions emptyStore).roles.map
      Role.name).count "admin" = 1 ∧
    ((seed_default_roles_and_permissions
      (seed_default_roles_and_permissions emptyStore)).perms.map
        Permission.name).count "users.read" = 1 ∧
    (seed_default_roles_and_permissions
      (seed_default_roles_and_permissions emptyStore)).role_perms.Nodup :=
  ⟨((c2_seed_twice emptyStore (by decide)).1
      ("admin", "Administrator with full access") (by decide)).1,
   ((c2_seed_twice emptyStore (by decide)).2.1
      ("users.read", "Read users") (by decide)).2,
   (c2_seed_twice emptyStore (by decide)).2.2.2.1⟩

/-- C9 (confirmed).  Seeding grants the admin role every permission
present in the store after the seeding steps — the grant iterates over
`get_all`, not over the seed list — so permissions that existed before
seeding survive it and end up in the admin role's permission set, which
equals the full permission table. -/
theorem c9_admin_granted_every_permission (s : Store) (hwf : s.WF) :
    (∀ p ∈ s.perms, p ∈ (seed_default_roles_and_permissions s).perms) ∧
    ∃ admin, role_get_by_name (seed_default_roles_and_permissions s) "admin"
        = some admin ∧
      permsOf (seed_default_roles_and_permissions s) admin
        = (seed_default_roles_and_permissions s).perms := by
  obtain ⟨-, -, -, hkeep, -, -, -⟩ := seed_post s hwf
  exact ⟨hkeep, seed_admin_closure s hwf⟩

/-- Witness for C9: the non-seed permission of `preStore` is still
present after seeding and the admin role's permission set is the whole
table, hence includes it. -/
theorem c9_witness :
    customPerm ∈ preStore.perms ∧
    ((∀ p ∈ preStore.perms,
        p ∈ (seed_default_roles_and_permissions preStore).perms) ∧
      ∃ admin, role_get_by_name (seed_default_roles_and_permissions preStore)
          "admin" = some admin ∧
        permsOf (seed_default_roles_and_permissions preStore) admin
          = (seed_default_roles_and_permissions preStore).perms) :=
  ⟨by decide, c9_admin_granted_every_permission preStore (by decide)⟩

end Xerppy
